import Mathlib

/-!
Shallow embedding of `src/main.py` (an AI Telegram study bot: a Flask
webhook that forwards a Telegram message's text to the OpenRouter chat
completion API, best-effort inserts a record into a Supabase table, and
replies via the Telegram bot API).

External boundaries (Flask request parsing, the Telegram SDK's
`Update.de_json` / handler dispatch, the network outcomes of the
OpenRouter call and the Supabase insert) are modelled as explicit data:
an already-parsed JSON request body, and oracle parameters giving the
outcome of each outbound call.  The handler is modelled as a pure
function producing the ordered list of outbound effects it performs,
the set of durably persisted rows, and the HTTP response body.
-/

namespace StudyBot

/-- JSON values, as parsed from an HTTP body (`request.get_json`) or
returned by `response.json()`. -/
inductive Json where
  | null
  | bool (b : Bool)
  | num (n : Int)
  | str (s : String)
  | arr (elems : List Json)
  | obj (fields : List (String × Json))

/-- Field lookup in a JSON object; `none` when the key is absent or the
value is not an object (models Python `d.get(key)`). -/
def Json.lookup : Json → String → Option Json
  | .obj fields, k => fields.lookup k
  | _, _ => none

/-- Extract an integer. -/
def Json.asInt : Json → Option Int
  | .num n => some n
  | _ => none

/-- Extract a string. -/
def Json.asStr : Json → Option String
  | .str s => some s
  | _ => none

/-- The Python type name of a parsed-JSON value, as it appears in
Python error messages. -/
def pyTypeName : Json → String
  | .null => "NoneType"
  | .bool _ => "bool"
  | .num _ => "int"
  | .str _ => "str"
  | .arr _ => "list"
  | .obj _ => "dict"

/-- Python repr of a parsed-JSON value (used by `str()` on containers). -/
def pyRepr : Json → String
  | .null => "None"
  | .bool true => "True"
  | .bool false => "False"
  | .num n => toString n
  | .str s => "\x27" ++ s ++ "\x27"
  | .arr elems => "[" ++ String.intercalate ", " (elems.attach.map (fun e => pyRepr e.val)) ++ "]"
  | .obj fields =>
      "\x7b" ++
        String.intercalate ", "
          (fields.attach.map (fun f => "\x27" ++ f.val.fst ++ "\x27: " ++ pyRepr f.val.snd)) ++
      "\x7d"
decreasing_by
  · have h := List.sizeOf_lt_of_mem e.property
    simp only [Json.arr.sizeOf_spec]
    omega
  · have h := List.sizeOf_lt_of_mem f.property
    have h1 : sizeOf f.val.snd < sizeOf f.val := by
      obtain ⟨a, b⟩ := f.val
      simp
    simp only [Json.obj.sizeOf_spec]
    omega

/-- Python `str()` of a parsed-JSON value (what an f-string interpolates). -/
def pyStr : Json → String
  | .str s => s
  | v => pyRepr v

/-- JSON serialization, used to compare the endpoint's plain-string HTTP
bodies against the JSON payload shapes the specification describes. -/
def Json.render : Json → String
  | .null => "null"
  | .bool true => "true"
  | .bool false => "false"
  | .num n => toString n
  | .str s => "\"" ++ s ++ "\""
  | .arr elems => "[" ++ String.intercalate ", " (elems.attach.map (fun e => Json.render e.val)) ++ "]"
  | .obj fields =>
      "\x7b" ++
        String.intercalate ", "
          (fields.attach.map (fun f => "\"" ++ f.val.fst ++ "\": " ++ Json.render f.val.snd)) ++
      "\x7d"
decreasing_by
  · have h := List.sizeOf_lt_of_mem e.property
    simp only [Json.arr.sizeOf_spec]
    omega
  · have h := List.sizeOf_lt_of_mem f.property
    have h1 : sizeOf f.val.snd < sizeOf f.val := by
      obtain ⟨a, b⟩ := f.val
      simp
    simp only [Json.obj.sizeOf_spec]
    omega

/-- Telegram sender (`telegram.User`), restricted to the attributes
`handle_message` reads: `user.id` and `user.username`. -/
structure TgUser where
  id : Int
  username : Option String

/-- Telegram chat, restricted to the attribute the update carries. -/
structure TgChat where
  id : Int

/-- Telegram message (`telegram.Message`), restricted to the attributes
this program reads: `chat`, optional `text`, optional sender
(`message.from_user`; absent e.g. for messages sent to channels). -/
structure TgMessage where
  chat : TgChat
  text : Option String
  from_user : Option TgUser

/-- Telegram update (`telegram.Update`), restricted to the `message`
field this program's single handler dispatches on. -/
structure TgUpdate where
  message : Option TgMessage

/-- Model of `telegram.User.de_json` (python-telegram-bot v20+, the
library this program imports): `User.__init__` requires `id`,
`first_name` and `is_bot`, so a `from` object missing one raises
`TypeError`, which propagates out of the webhook view as a Flask 500.
Only the attributes this program reads are retained; field values are
modelled at the types the Telegram Bot API declares (integer ids, string
username), and the error strings are representative renderings of the
raised exception. -/
def TgUser.de_json (v : Json) : Except String TgUser :=
  match (v.lookup "id").bind Json.asInt with
  | none => .error "User.__init__() missing 1 required positional argument: \x27id\x27"
  | some i =>
    if (v.lookup "first_name").isNone then
      .error "User.__init__() missing 1 required positional argument: \x27first_name\x27"
    else if (v.lookup "is_bot").isNone then
      .error "User.__init__() missing 1 required positional argument: \x27is_bot\x27"
    else
      .ok ⟨i, (v.lookup "username").bind Json.asStr⟩

/-- Model of `telegram.Chat.de_json` (PTB v20+): `Chat.__init__` requires
both `id` and `type`, so a chat object lacking `type` — as in the
specification's concrete scenario input — raises `TypeError`. -/
def TgChat.de_json (v : Json) : Except String TgChat :=
  match (v.lookup "id").bind Json.asInt with
  | none => .error "Chat.__init__() missing 1 required positional argument: \x27id\x27"
  | some i =>
    if (v.lookup "type").isNone then
      .error "Chat.__init__() missing 1 required positional argument: \x27type\x27"
    else
      .ok ⟨i⟩

/-- Model of `telegram.Message.de_json` (PTB v20+): `chat`, `message_id`
and `date` are required, raising `TypeError` (propagated as a Flask 500)
when absent; `from` is optional but must itself parse when present;
`text` is optional. -/
def TgMessage.de_json (v : Json) : Except String TgMessage :=
  match (match v.lookup "from" with
         | none => Except.ok (none : Option TgUser)
         | some .null => Except.ok none
         | some fj => (TgUser.de_json fj).map some) with
  | .error e => .error e
  | .ok fromUser =>
    match v.lookup "chat" with
    | none => .error "Message.__init__() missing 1 required positional argument: \x27chat\x27"
    | some cj =>
      match TgChat.de_json cj with
      | .error e => .error e
      | .ok chat =>
        if (v.lookup "message_id").isNone then
          .error "Message.__init__() missing 1 required positional argument: \x27message_id\x27"
        else if ((v.lookup "date").bind Json.asInt).isNone then
          .error "\x27date\x27"
        else
          .ok ⟨chat, (v.lookup "text").bind Json.asStr, fromUser⟩

/-- Model of `telegram.Update.de_json` (PTB v20+, src/main.py line 62).
`None` and falsy bodies (`\x7b\x7d`, `[]`) parse to `None`; a non-dict
body raises (`AttributeError`: no `.copy` / `.get`); for a non-empty
dict the `message` field is parsed first (raising on a malformed
message), then `Update.__init__` requires `update_id`.  A raising parse
propagates out of the Flask view as an unhandled 500. -/
def TgUpdate.de_json (v : Json) : Except String (Option TgUpdate) :=
  match v with
  | .null => .ok none
  | .bool b => .error ("\x27" ++ pyTypeName (.bool b) ++ "\x27 object has no attribute \x27copy\x27")
  | .num n => .error ("\x27" ++ pyTypeName (.num n) ++ "\x27 object has no attribute \x27copy\x27")
  | .str s => .error ("\x27" ++ pyTypeName (.str s) ++ "\x27 object has no attribute \x27copy\x27")
  | .arr [] => .ok none
  | .arr (_ :: _) => .error "\x27list\x27 object has no attribute \x27get\x27"
  | .obj [] => .ok none
  | .obj (f :: fs) =>
    match (match (Json.obj (f :: fs)).lookup "message" with
           | none => Except.ok (none : Option TgMessage)
           | some .null => Except.ok none
           | some mj => (TgMessage.de_json mj).map some) with
    | .error e => .error e
    | .ok msg =>
      if ((Json.obj (f :: fs)).lookup "update_id").isNone then
        .error "Update.__init__() missing 1 required positional argument: \x27update_id\x27"
      else
        .ok (some ⟨msg⟩)

/-- Model of `filters.TEXT`: the message carries a (non-`None`) text. -/
def filtersTEXT (m : TgMessage) : Bool :=
  m.text.isSome

/-- Model of `filters.COMMAND`: the text is a bot command (begins with
the `/` of a command entity at offset 0). -/
def filtersCOMMAND (m : TgMessage) : Bool :=
  match m.text with
  | some t =>
    match t.data with
    | c :: _ => c == '/'
    | [] => false
  | none => false

/-- The JSON value an f-string / `json=` serialization gives the message
text object (`None` becomes JSON null). -/
def textJson : Option String → Json
  | some s => .str s
  | none => .null

/-- The JSON payload `get_ai_response` posts to the OpenRouter chat
completions endpoint (src/main.py lines 29-32): the fixed model name and
a single-turn messages list holding only the user text. -/
def completionPayload (content : Json) : Json :=
  .obj [("model", .str "google/gemini-2.0-flash-exp:free"),
        ("messages", .arr [.obj [("role", .str "user"), ("content", content)]])]

/-- Outcome of `requests.post(...)` followed by `response.json()`: either
some exception is raised (network error, non-JSON body, ...), carrying
its Python `str(e)` rendering, or a parsed JSON body is produced. -/
inductive HttpOutcome where
  | raise (e : String)
  | body (v : Json)

/-- Python subscript `v[key]` on a parsed-JSON value: the field, or the
`str()` of the raised `KeyError`/`TypeError`. -/
def pyGetKey (v : Json) (k : String) : Except String Json :=
  match v with
  | .obj fields =>
    match fields.lookup k with
    | some x => .ok x
    | none => .error ("\x27" ++ k ++ "\x27")
  | .str _ => .error "string indices must be integers"
  | .arr _ => .error "list indices must be integers or slices, not str"
  | other => .error ("\x27" ++ pyTypeName other ++ "\x27 object is not subscriptable")

/-- Python subscript `v[i]` on a parsed-JSON value: the element, or the
`str()` of the raised `IndexError`/`KeyError`/`TypeError`. -/
def pyGetIdx (v : Json) (i : Nat) : Except String Json :=
  match v with
  | .arr elems =>
    match elems.get? i with
    | some x => .ok x
    | none => .error "list index out of range"
  | .str s =>
    match s.data.get? i with
    | some c => .ok (.str (String.mk [c]))
    | none => .error "string index out of range"
  | .obj _ => .error (toString i)
  | other => .error ("\x27" ++ pyTypeName other ++ "\x27 object is not subscriptable")

/-- The extraction `result[\x27choices\x27][0][\x27message\x27][\x27content\x27]`
(src/main.py line 35), with Python's raising subscripts. -/
def extractContent (result : Json) : Except String Json := do
  let choices ← pyGetKey result "choices"
  let c0 ← pyGetIdx choices 0
  let msg ← pyGetKey c0 "message"
  pyGetKey msg "content"

/-- Model of `get_ai_response` (src/main.py lines 21-37): one POST of
`completionPayload content` to the completion endpoint — returned as the
first component so the caller can record the call as an effect — and the
returned string: on any exception `e` (network, JSON decoding,
extraction) the `except` branch yields "AI Error: " ++ str(e), else the
extracted content (rendered by `str()` when the reply text is later
interpolated). -/
def get_ai_response (content : Json) (outcome : HttpOutcome) : Json × String :=
  ⟨completionPayload content,
   match outcome with
   | .raise e => "AI Error: " ++ e
   | .body v =>
     match extractContent v with
     | .ok c => pyStr c
     | .error e => "AI Error: " ++ e⟩

/-- Does the completion call fail (raise, or raise during extraction)? -/
def completionFailed : HttpOutcome → Bool
  | .raise _ => true
  | .body v =>
    match extractContent v with
    | .ok _ => false
    | .error _ => true

/-- One observable outbound effect of handling a request, in the order
the handler performs them. -/
inductive Effect where
  | dbInsert (table : String) (record : List (String × Json))
  | completionCall (payload : Json)
  | telegramReply (text : String)

/-- The record dict built for the Supabase insert (src/main.py lines
46-51): sender id, sender username, message text, fixed type tag. -/
def insertRecord (u : TgUser) (content : Json) : List (String × Json) :=
  [("user_id", .num u.id),
   ("username", textJson u.username),
   ("content", content),
   ("type", .str "text")]

/-- The fixed header prepended to every Telegram reply
(src/main.py line 57; the source file holds the mojibake bytes of a books
emoji and literal backslash-n sequences). -/
def replyHeader : String :=
  "ðŸ“š Study Assistant:\\n\\n"

/-- The outcome of one handled message: the ordered outbound calls made,
and the rows durably stored by the data store. -/
structure HandlerRun where
  events : List Effect
  persisted : List (String × List (String × Json))

/-- The empty run (no handler dispatched). -/
def HandlerRun.empty : HandlerRun :=
  ⟨[], []⟩

/-- Model of `handle_message` (src/main.py lines 40-57), given oracles for
the data-store outcome (`dbOk` = the insert's `execute()` succeeds) and
the completion-service outcome.  The `try` block: when the sender is
absent, evaluating `user.id` raises before the insert call is issued, so
no insert call is made; either failure is swallowed by the bare
`except: pass`.  Then the completion call and the Telegram reply. -/
def handle_message (m : TgMessage) (dbOk : Bool) (outcome : HttpOutcome) : HandlerRun :=
  let tj := textJson m.text
  let dbEvents : List Effect :=
    match m.from_user with
    | none => []
    | some u => [.dbInsert "study_material" (insertRecord u tj)]
  let stored : List (String × List (String × Json)) :=
    match m.from_user, dbOk with
    | some u, true => [("study_material", insertRecord u tj)]
    | _, _ => []
  let ai := get_ai_response tj outcome
  { events := dbEvents ++ [.completionCall ai.fst,
                           .telegramReply (replyHeader ++ ai.snd)],
    persisted := stored }

/-- Model of `Application.process_update` with the single registered
handler `MessageHandler(filters.TEXT & ~filters.COMMAND, handle_message)`
(src/main.py line 72): dispatch `handle_message` when the update carries
a message passing the filter; otherwise no handler runs.  Exceptions from
handlers go to the application's error handlers, never to the caller. -/
def process_update (upd : TgUpdate) (dbOk : Bool) (outcome : HttpOutcome) : HandlerRun :=
  match upd.message with
  | some m => if filtersTEXT m && !(filtersCOMMAND m) then handle_message m dbOk outcome else .empty
  | none => .empty

/-- Outcome of one POST /webhook request: a normal 200 response carrying
its body and the run it performed, or a Flask 500 when Telegram parsing
raises out of the view (src/main.py line 62). -/
inductive WebhookOutcome where
  | response (httpBody : String) (run : HandlerRun)
  | serverError (e : String)

/-- Model of the `POST /webhook` endpoint (src/main.py lines 60-64):
parse the JSON body into an update — a raising parse escapes the view as
a 500 — process it, and respond with the literal body `ok`. -/
def webhook (body : Json) (dbOk : Bool) (outcome : HttpOutcome) : WebhookOutcome :=
  match TgUpdate.de_json body with
  | .error e => .serverError e
  | .ok none => .response "ok" .empty
  | .ok (some upd) => .response "ok" (process_update upd dbOk outcome)

/-- Model of the `GET /` endpoint (src/main.py lines 66-68). -/
def home : String :=
  "AI Telegram Study Bot is running!"

/-- Is this effect a data-store insert call? -/
def isDbInsert : Effect → Bool
  | .dbInsert _ _ => true
  | _ => false

/-- Is this effect a completion-service call? -/
def isCompletionCall : Effect → Bool
  | .completionCall _ => true
  | _ => false

/-- The text of a Telegram reply effect. -/
def replyTextOf : Effect → Option String
  | .telegramReply t => some t
  | _ => none

/-- The texts sent out as Telegram replies during a run, in order. -/
def replies (r : HandlerRun) : List String :=
  r.events.filterMap replyTextOf

/-- The HTTP 200 body of a webhook outcome; `none` for a 500. -/
def httpBodyOf : WebhookOutcome → Option String
  | .response b _ => some b
  | .serverError _ => none

/-- Did the request end in an unhandled-exception 500? -/
def isServerError : WebhookOutcome → Bool
  | .serverError _ => true
  | _ => false

/-- The outbound effects performed by a webhook request (none when
parsing raised before any dispatch). -/
def webhookEvents : WebhookOutcome → List Effect
  | .response _ r => r.events
  | .serverError _ => []

/-- The rows durably persisted by a webhook request. -/
def webhookPersisted : WebhookOutcome → List (String × List (String × Json))
  | .response _ r => r.persisted
  | .serverError _ => []

/-- The Telegram reply texts sent by a webhook request. -/
def webhookReplies : WebhookOutcome → List String
  | .response _ r => replies r
  | .serverError _ => []

/-- Does the body parse without raising (so the view returns 200)? -/
def parseOk (body : Json) : Bool :=
  match TgUpdate.de_json body with
  | .ok _ => true
  | .error _ => false

/-- No completion call ever occurs at a later position than a data-store
insert call (the ordering asserted by the specification, with the insert
modelled as awaited: `execute()` is synchronous). -/
def completionNeverAfterDb (es : List Effect) : Prop :=
  ∀ i j : Nat, i < j → (es.get? i).map isDbInsert = some true →
    (es.get? j).map isCompletionCall = some true → False

/-- The serialization of a JSON object always begins with an opening
brace. -/
theorem render_obj_head (fs : List (String × Json)) :
    (Json.render (Json.obj fs)).data.head? = some '\x7b' := by
  rw [Json.render]
  rw [String.data_append, String.data_append]
  rfl

/-- A string that does not begin with an opening brace is not the
serialization of any JSON object. -/
theorem ne_render_obj (s : String) (h : s.data.head? ≠ some '\x7b')
    (fs : List (String × Json)) : s ≠ Json.render (Json.obj fs) := by
  intro he
  apply h
  rw [he]
  exact render_obj_head fs

/-- Appending to a non-empty string yields a non-empty string. -/
theorem append_ne_empty_left (a b : String) (ha : a ≠ "") : a ++ b ≠ "" := by
  intro h
  have hd : a.data ++ b.data = [] := by
    have hc := congrArg String.data h
    rwa [String.data_append] at hc
  have h1 := (List.append_eq_nil.mp hd).1
  apply ha
  cases a with
  | mk d => exact congrArg String.mk h1

/-- Every Telegram reply text begins with the fixed header, hence is
non-empty. -/
theorem replyHeader_append_ne (s : String) : replyHeader ++ s ≠ "" :=
  append_ne_empty_left replyHeader s (by decide)

/-- When the body parses without raising, the webhook's HTTP body is the
literal `ok`, whatever the outcomes of the outbound calls. -/
theorem webhook_parse_ok_body (body : Json) (dbOk : Bool) (o : HttpOutcome)
    (hb : parseOk body = true) :
    httpBodyOf (webhook body dbOk o) = some "ok" := by
  unfold parseOk at hb
  unfold webhook
  cases hp : TgUpdate.de_json body with
  | error e => rw [hp] at hb; simp at hb
  | ok u => cases u <;> rfl

/-- Every dispatched message run sends exactly one Telegram reply: the
fixed header followed by the completion text. -/
theorem handle_message_replies (m : TgMessage) (dbOk : Bool) (o : HttpOutcome) :
    replies (handle_message m dbOk o) =
      [replyHeader ++ (get_ai_response (textJson m.text) o).snd] := by
  obtain ⟨c, tx, fu⟩ := m
  cases fu <;> rfl

/-- Processing any update sends either no reply (no dispatch) or exactly
one reply made of the fixed header plus the completion text. -/
theorem process_update_replies (upd : TgUpdate) (dbOk : Bool) (o : HttpOutcome) :
    replies (process_update upd dbOk o) = [] ∨
      ∃ a, replies (process_update upd dbOk o) = [replyHeader ++ a] := by
  obtain ⟨msg⟩ := upd
  cases msg with
  | none => exact Or.inl rfl
  | some m =>
    show replies (if filtersTEXT m && !(filtersCOMMAND m)
                  then handle_message m dbOk o else HandlerRun.empty) = [] ∨
         ∃ a, replies (if filtersTEXT m && !(filtersCOMMAND m)
                  then handle_message m dbOk o else HandlerRun.empty) = [replyHeader ++ a]
    by_cases hf : (filtersTEXT m && !(filtersCOMMAND m)) = true
    · rw [if_pos hf]
      exact Or.inr ⟨(get_ai_response (textJson m.text) o).snd,
        handle_message_replies m dbOk o⟩
    · rw [if_neg hf]
      exact Or.inl rfl

/-- C1 (amended): for every POST /webhook request whose JSON body is
missing the `message` field, no external call is ever issued (no
completion-service call and no data-store call), and the response is
never an `ok:false` payload: it is the literal success body `ok` when
the Telegram update parses (e.g. `\x7b\x7d`, `null`, or a body carrying
`update_id`), and an unhandled-exception 500 when SDK parsing raises
(a non-empty body missing `update_id`, or a non-dict body). -/
theorem C1_missing_message_no_calls (body : Json) (dbOk : Bool) (o : HttpOutcome)
    (h : body.lookup "message" = none) :
    webhookEvents (webhook body dbOk o) = [] ∧
    (httpBodyOf (webhook body dbOk o) = some "ok" ∨
      isServerError (webhook body dbOk o) = true) := by
  cases body with
  | null => exact ⟨rfl, Or.inl rfl⟩
  | bool b => exact ⟨rfl, Or.inr rfl⟩
  | num n => exact ⟨rfl, Or.inr rfl⟩
  | str s => exact ⟨rfl, Or.inr rfl⟩
  | arr xs =>
    cases xs with
    | nil => exact ⟨rfl, Or.inl rfl⟩
    | cons x xs2 => exact ⟨rfl, Or.inr rfl⟩
  | obj fields =>
    cases fields with
    | nil => exact ⟨rfl, Or.inl rfl⟩
    | cons f fs =>
      cases hu : (Json.obj (f :: fs)).lookup "update_id" with
      | none =>
        refine ⟨?_, Or.inr ?_⟩ <;>
          simp [webhook, webhookEvents, isServerError, TgUpdate.de_json, h, hu]
      | some uj =>
        refine ⟨?_, Or.inl ?_⟩ <;>
          simp [webhook, webhookEvents, httpBodyOf, TgUpdate.de_json, h, hu,
                process_update, HandlerRun.empty]

/-- C1 witness: the empty JSON object body is missing `message`; the
response is `ok` with no outbound calls. -/
theorem C1_witness :
    (Json.obj []).lookup "message" = none ∧
    (webhookEvents (webhook (Json.obj []) true (HttpOutcome.raise "boom")) = [] ∧
     (httpBodyOf (webhook (Json.obj []) true (HttpOutcome.raise "boom")) = some "ok" ∨
      isServerError (webhook (Json.obj []) true (HttpOutcome.raise "boom")) = true)) :=
  ⟨rfl, C1_missing_message_no_calls (Json.obj []) true (HttpOutcome.raise "boom") rfl⟩

/-- C1 counterexample: on the body `\x7b\x7d` the endpoint does make zero
external calls, but its response is the plain string `ok`, which is not
the serialization of any JSON object of the form `\x7bok: false, ...\x7d`. -/
theorem C1_counterexample :
    webhookEvents (webhook (Json.obj []) true (HttpOutcome.raise "boom")) = [] ∧
    ¬ ∃ fs, httpBodyOf (webhook (Json.obj []) true (HttpOutcome.raise "boom")) =
        some (Json.render (Json.obj (("ok", Json.bool false) :: fs))) := by
  refine ⟨rfl, ?_⟩
  rintro ⟨fs, h⟩
  have hb : httpBodyOf (webhook (Json.obj []) true (HttpOutcome.raise "boom")) =
      some "ok" := rfl
  rw [hb] at h
  exact ne_render_obj "ok" (by decide) _ (Option.some.inj h)

/-- C2 (confirmed): for every handled message, when the completion call
fails (network/API error or malformed response), the handler still sends
exactly one reply, its text is non-empty (the degraded `AI Error: ...`
message behind the fixed header), the failure never escapes the handler
(the completion exception is caught inside `get_ai_response`), and the
HTTP response of any request whose body parsed — in particular the one
that dispatched this message — is still the success body `ok`. -/
theorem C2_completion_failure_degraded (m : TgMessage) (body : Json) (dbOk : Bool)
    (o : HttpOutcome) (h : completionFailed o = true) (hb : parseOk body = true) :
    replies (handle_message m dbOk o) =
      [replyHeader ++ (get_ai_response (textJson m.text) o).snd] ∧
    replyHeader ++ (get_ai_response (textJson m.text) o).snd ≠ "" ∧
    (∃ e, (get_ai_response (textJson m.text) o).snd = "AI Error: " ++ e) ∧
    httpBodyOf (webhook body dbOk o) = some "ok" := by
  refine ⟨handle_message_replies m dbOk o, replyHeader_append_ne _, ?_,
    webhook_parse_ok_body body dbOk o hb⟩
  cases o with
  | raise e => exact ⟨e, rfl⟩
  | body v =>
    simp only [completionFailed] at h
    cases hx : extractContent v with
    | ok c => rw [hx] at h; simp at h
    | error e =>
      refine ⟨e, ?_⟩
      simp [get_ai_response, hx]

/-- C2 witness: a network error on a concrete handled message, with a
concrete parsing body. -/
theorem C2_witness :
    completionFailed (HttpOutcome.raise "boom") = true ∧
    parseOk (Json.obj [("update_id", Json.num 1)]) = true ∧
    (replies (handle_message ⟨⟨1⟩, some "hi", none⟩ true (HttpOutcome.raise "boom")) =
       [replyHeader ++ (get_ai_response (textJson (some "hi")) (HttpOutcome.raise "boom")).snd] ∧
     replyHeader ++ (get_ai_response (textJson (some "hi")) (HttpOutcome.raise "boom")).snd ≠ "" ∧
     (∃ e, (get_ai_response (textJson (some "hi")) (HttpOutcome.raise "boom")).snd =
        "AI Error: " ++ e) ∧
     httpBodyOf (webhook (Json.obj [("update_id", Json.num 1)]) true
        (HttpOutcome.raise "boom")) = some "ok") :=
  ⟨rfl, rfl, C2_completion_failure_degraded ⟨⟨1⟩, some "hi", none⟩
    (Json.obj [("update_id", Json.num 1)]) true (HttpOutcome.raise "boom") rfl rfl⟩

/-- C3 (confirmed): for every handled message and fixed completion
outcome, the run in which the data-store insert raises produces the very
same reply (indeed the same ordered effects) as the run in which it
succeeds, and the insert is attempted at most once (never retried). -/
theorem C3_persistence_failure_same_reply (m : TgMessage) (o : HttpOutcome) :
    replies (handle_message m false o) = replies (handle_message m true o) ∧
    (handle_message m false o).events = (handle_message m true o).events ∧
    (handle_message m false o).events.countP isDbInsert ≤ 1 := by
  refine ⟨rfl, rfl, ?_⟩
  obtain ⟨c, tx, fu⟩ := m
  cases fu <;> simp [handle_message, List.countP_cons, isDbInsert]

/-- The concrete scenario body of the specification's testable property 5:
`\x7b"message": \x7b"chat": \x7b"id": 42\x7d, "text": "What is osmosis?"\x7d\x7d`. -/
def osmosisBody : Json :=
  .obj [("message", .obj [("chat", .obj [("id", .num 42)]),
                          ("text", .str "What is osmosis?")])]

/-- A completion-service response whose `choices[0].message.content` is
the stubbed string `Osmosis is...`. -/
def osmosisStub : HttpOutcome :=
  .body (.obj [("choices",
    .arr [.obj [("message", .obj [("content", .str "Osmosis is...")])]])])

/-- C4 counterexample: on the exact scenario input (store working,
completion stubbed to `Osmosis is...`) the endpoint persists zero
records — Telegram parsing raises before any dispatch — and produces no
200 body at all, in particular no serialization of any
`\x7bok: true, ...\x7d` object. -/
theorem C4_counterexample :
    webhookPersisted (webhook osmosisBody true osmosisStub) = [] ∧
    ¬ ∃ fs, httpBodyOf (webhook osmosisBody true osmosisStub) =
        some (Json.render (Json.obj (("ok", Json.bool true) :: fs))) := by
  refine ⟨rfl, ?_⟩
  rintro ⟨fs, h⟩
  have hb : httpBodyOf (webhook osmosisBody true osmosisStub) = none := rfl
  rw [hb] at h
  exact Option.noConfusion h

/-- C4 (amended): on the concrete input
`\x7b"message": \x7b"chat": \x7b"id": 42\x7d, "text": "What is osmosis?"\x7d\x7d`
with the completion service stubbed to return `Osmosis is...`, the
endpoint returns an unhandled-exception 500 — SDK parsing raises before
any handler runs (the chat lacks `type`, the message lacks
`message_id`/`date`, the update lacks `update_id`) — so no completion
call is made, no Telegram reply is sent, and zero records are persisted,
whatever the store outcome. -/
theorem C4_concrete_run (dbOk : Bool) :
    isServerError (webhook osmosisBody dbOk osmosisStub) = true ∧
    webhookEvents (webhook osmosisBody dbOk osmosisStub) = [] ∧
    webhookPersisted (webhook osmosisBody dbOk osmosisStub) = [] := by
  cases dbOk <;> exact ⟨rfl, rfl, rfl⟩

/-- C6 counterexample: the request's `messages` list never has the
two-element form (fixed system prompt followed by the user text): for the
concrete text `hi` it is a one-element list. -/
theorem C6_counterexample :
    ¬ ∃ sysMsg userMsg : Json,
        (completionPayload (Json.str "hi")).lookup "messages" =
          some (Json.arr [sysMsg, userMsg]) := by
  rintro ⟨sm, um, h⟩
  have he : (completionPayload (Json.str "hi")).lookup "messages" =
      some (Json.arr [Json.obj [("role", Json.str "user"),
                                ("content", Json.str "hi")]]) := rfl
  rw [he] at h
  simp at h

/-- C6 (amended): for every handled message, the request sent to the
completion service carries the fixed model-name string
`google/gemini-2.0-flash-exp:free` and a messages list consisting solely
of the user text as a single user-role turn (no system prompt), and the
reply string is extracted from the response's `choices[0].message.content`
field. -/
theorem C6_request_shape (t : String) (v : Json) (s : String)
    (h : extractContent v = Except.ok (Json.str s)) :
    (completionPayload (Json.str t)).lookup "model" =
      some (Json.str "google/gemini-2.0-flash-exp:free") ∧
    (completionPayload (Json.str t)).lookup "messages" =
      some (Json.arr [Json.obj [("role", Json.str "user"),
                                ("content", Json.str t)]]) ∧
    (get_ai_response (Json.str t) (HttpOutcome.body v)).fst =
      completionPayload (Json.str t) ∧
    (get_ai_response (Json.str t) (HttpOutcome.body v)).snd = s := by
  refine ⟨rfl, rfl, rfl, ?_⟩
  simp [get_ai_response, h, pyStr]

/-- C6 witness: a concrete response whose `choices[0].message.content`
is `yo`, extracted as the reply for the concrete text `hi`. -/
theorem C6_witness :
    extractContent (Json.obj [("choices",
        Json.arr [Json.obj [("message", Json.obj [("content", Json.str "yo")])]])]) =
      Except.ok (Json.str "yo") ∧
    ((completionPayload (Json.str "hi")).lookup "model" =
       some (Json.str "google/gemini-2.0-flash-exp:free") ∧
     (completionPayload (Json.str "hi")).lookup "messages" =
       some (Json.arr [Json.obj [("role", Json.str "user"),
                                 ("content", Json.str "hi")]]) ∧
     (get_ai_response (Json.str "hi") (HttpOutcome.body (Json.obj [("choices",
         Json.arr [Json.obj [("message", Json.obj [("content", Json.str "yo")])]])]))).fst =
       completionPayload (Json.str "hi") ∧
     (get_ai_response (Json.str "hi") (HttpOutcome.body (Json.obj [("choices",
         Json.arr [Json.obj [("message", Json.obj [("content", Json.str "yo")])]])]))).snd =
       "yo") :=
  ⟨rfl, C6_request_shape "hi" (Json.obj [("choices",
      Json.arr [Json.obj [("message", Json.obj [("content", Json.str "yo")])]])]) "yo" rfl⟩

/-- A concrete handled message with a sender, used to exhibit the actual
effect order. -/
def c7msg : TgMessage :=
  ⟨⟨1⟩, some "hello", some ⟨7, some "alice"⟩⟩

/-- C7 counterexample: in the concrete run the awaited data-store insert
(position 0) happens strictly before the completion call (position 1),
so the completion call does happen after an awaited persistence call. -/
theorem C7_counterexample :
    ¬ completionNeverAfterDb (handle_message c7msg true (HttpOutcome.raise "net down")).events := by
  intro h
  exact h 0 1 (by decide) rfl rfl

/-- C7 (amended): for every handled request the effects occur in the
fixed order: first the awaited best-effort persistence attempt (an insert
call when the sender is present, nothing otherwise), then the completion
call, then the reply; in particular the reply is never sent before the
completion call. -/
theorem C7_effect_order (m : TgMessage) (dbOk : Bool) (o : HttpOutcome) :
    ∃ pre, pre.all isDbInsert = true ∧
      (handle_message m dbOk o).events =
        pre ++ [Effect.completionCall (completionPayload (textJson m.text)),
                Effect.telegramReply
                  (replyHeader ++ (get_ai_response (textJson m.text) o).snd)] := by
  obtain ⟨c, tx, fu⟩ := m
  cases fu with
  | none => exact ⟨[], rfl, rfl⟩
  | some u =>
    exact ⟨[Effect.dbInsert "study_material" (insertRecord u (textJson tx))], rfl, rfl⟩

/-- A complete, valid Telegram update body (all SDK-required fields
present) whose message carries text but no `from` sender. -/
def c8body : Json :=
  .obj [("update_id", .num 7),
        ("message", .obj [("message_id", .num 1), ("date", .num 0),
                          ("chat", .obj [("id", .num 5), ("type", .str "channel")]),
                          ("text", .str "hello")])]

/-- C8 counterexample: a fully valid update whose message has no sender
is parsed and handled (its run completes with `ok` and makes two events,
the completion call and the reply) yet issues zero insert calls —
`user.id` raises inside the swallowed try-block before the insert — so it
is not the case that every handled message makes exactly one insert call;
moreover the record built when a sender is present carries no `file_name`
or `file_type` field (it carries `username` instead). -/
theorem C8_counterexample :
    httpBodyOf (webhook c8body true (HttpOutcome.raise "x")) = some "ok" ∧
    (webhookEvents (webhook c8body true (HttpOutcome.raise "x"))).countP isDbInsert = 0 ∧
    (webhookEvents (webhook c8body true (HttpOutcome.raise "x"))).length = 2 ∧
    (insertRecord ⟨7, some "alice"⟩ (Json.str "hi")).lookup "file_name" = none ∧
    (insertRecord ⟨7, some "alice"⟩ (Json.str "hi")).lookup "file_type" = none :=
  ⟨rfl, rfl, rfl, rfl, rfl⟩

/-- C8 (amended): for every handled message whose sender is present,
exactly one insert call is made into the fixed logical table
`study_material`, and the inserted record has exactly the fields
`user_id`, `username`, `content` and the fixed type tag `text` (no
`file_name`/`file_type` placeholders); the record is written once and the
run performs no other data-store effect (never mutated or read back). -/
theorem C8_insert_shape (m : TgMessage) (u : TgUser) (dbOk : Bool) (o : HttpOutcome)
    (h : m.from_user = some u) :
    (handle_message m dbOk o).events.filter isDbInsert =
      [Effect.dbInsert "study_material" (insertRecord u (textJson m.text))] ∧
    (insertRecord u (textJson m.text)).map Prod.fst =
      ["user_id", "username", "content", "type"] ∧
    (insertRecord u (textJson m.text)).lookup "type" = some (Json.str "text") := by
  obtain ⟨c, tx, fu⟩ := m
  cases fu with
  | none => simp at h
  | some u2 =>
    have hu : u2 = u := by injection h
    subst hu
    exact ⟨rfl, rfl, rfl⟩

/-- C8 witness: a concrete message with a sender makes exactly one insert
of the four-field record. -/
theorem C8_witness :
    (⟨⟨1⟩, some "hi", some ⟨7, some "alice"⟩⟩ : TgMessage).from_user =
      some ⟨7, some "alice"⟩ ∧
    ((handle_message ⟨⟨1⟩, some "hi", some ⟨7, some "alice"⟩⟩ true
        (HttpOutcome.raise "x")).events.filter isDbInsert =
      [Effect.dbInsert "study_material"
        (insertRecord ⟨7, some "alice"⟩ (textJson (some "hi")))] ∧
     (insertRecord ⟨7, some "alice"⟩ (textJson (some "hi"))).map Prod.fst =
       ["user_id", "username", "content", "type"] ∧
     (insertRecord ⟨7, some "alice"⟩ (textJson (some "hi"))).lookup "type" =
       some (Json.str "text")) :=
  ⟨rfl, C8_insert_shape ⟨⟨1⟩, some "hi", some ⟨7, some "alice"⟩⟩ ⟨7, some "alice"⟩
    true (HttpOutcome.raise "x") rfl⟩

/-- C9 counterexample: the `GET /` response is not the serialization of
any JSON object, in particular of none whose `status` field is
`running`. -/
theorem C9_counterexample :
    ¬ ∃ fs, home = Json.render (Json.obj fs) ∧
        (Json.obj fs).lookup "status" = some (Json.str "running") := by
  rintro ⟨fs, h, _⟩
  exact ne_render_obj home (by decide) fs h

/-- C9 (amended): for every GET request to the path `/`, the service
responds with the fixed non-empty plain-text liveness string
`AI Telegram Study Bot is running!` — a bare string, not a
`\x7bstatus: "running", ...\x7d` JSON payload. -/
theorem C9_home_liveness :
    home = "AI Telegram Study Bot is running!" ∧ home ≠ "" ∧
    ∀ fs, home ≠ Json.render (Json.obj fs) :=
  ⟨rfl, by decide, fun fs => ne_render_obj home (by decide) fs⟩

/-- C10 counterexample: the body `\x7b"foo": 1\x7d` fails Telegram
parsing (`update_id` missing, a `TypeError`), so the endpoint returns an
unhandled-exception 500 — there is no 200 body at all, in particular not
the literal `ok`. -/
theorem C10_counterexample :
    isServerError (webhook (Json.obj [("foo", Json.num 1)]) true
      (HttpOutcome.raise "x")) = true ∧
    httpBodyOf (webhook (Json.obj [("foo", Json.num 1)]) true
      (HttpOutcome.raise "x")) = none :=
  ⟨rfl, rfl⟩

/-- C10 (amended): for every POST /webhook request whose JSON body the
Telegram SDK parses without raising — whatever the outcomes of the
completion-service and data-store calls — the endpoint's HTTP body is
the literal string `ok` (bodies failing SDK parsing yield an
unhandled-exception 500 instead), and any completion text is delivered
only through the outbound Telegram reply call: the run sends either no
reply or exactly one reply consisting of the fixed header plus the
completion text, never placing it in the HTTP response body. -/
theorem C10_webhook_ok_constant (body : Json) (dbOk : Bool) (o : HttpOutcome)
    (hb : parseOk body = true) :
    httpBodyOf (webhook body dbOk o) = some "ok" ∧
    (webhookReplies (webhook body dbOk o) = [] ∨
      ∃ a, webhookReplies (webhook body dbOk o) = [replyHeader ++ a]) := by
  refine ⟨webhook_parse_ok_body body dbOk o hb, ?_⟩
  unfold webhook
  cases hd : TgUpdate.de_json body with
  | error e => exact Or.inl rfl
  | ok u =>
    cases u with
    | none => exact Or.inl rfl
    | some upd => exact process_update_replies upd dbOk o

/-- C10 witness: a concrete parsing body (`update_id` only) answered with
the literal `ok` and no reply. -/
theorem C10_witness :
    parseOk (Json.obj [("update_id", Json.num 5)]) = true ∧
    (httpBodyOf (webhook (Json.obj [("update_id", Json.num 5)]) true
        (HttpOutcome.raise "x")) = some "ok" ∧
     (webhookReplies (webhook (Json.obj [("update_id", Json.num 5)]) true
         (HttpOutcome.raise "x")) = [] ∨
      ∃ a, webhookReplies (webhook (Json.obj [("update_id", Json.num 5)]) true
         (HttpOutcome.raise "x")) = [replyHeader ++ a])) :=
  ⟨rfl, C10_webhook_ok_constant (Json.obj [("update_id", Json.num 5)]) true
    (HttpOutcome.raise "x") rfl⟩

end StudyBot
